import Mathlib

/-!
Verification of the sparse-radix SHA-256 arithmetization gadget
(`src/plonk/better_better_cs/hashes/sha256/gadgets.rs`).

The development shallowly embeds the gadget: field elements are naturals
below the scalar-field modulus, the constraint system is an explicit state
(variable counter, witness assignments, emitted gate items, registered
tables), and circuit construction is explicit state passing through a
small outcome monad distinguishing fatal aborts (Rust panics) from
recoverable `SynthesisError` returns.

Collaborators of the gadget that live outside the provided source slice
(the lookup-table builders, `AllocatedNum`, `ternary_lc_eq`, the gate
batching primitives of the constraint system) are modelled from the
specification; each such definition carries a doc comment starting with
`Modelled from the spec:`.  Everything else is translated directly from
the Rust source.
-/

namespace Sha256Gadget

/-- The scalar-field modulus of the Bls12-381 engine, the stock pairing
engine of the crate.  The gadget is generic over the engine; all values it
manipulates stay far below this modulus, so fixing the stock engine's
modulus loses no generality for the properties proved here. -/
def fieldMod : Nat :=
  52435875175126190479447740508185965837690552500527637822603658699938581184513

/-- A field element: a natural number, canonically below `fieldMod`. -/
abbrev Fr := Nat

/-- The little-endian limb representation used by `into_repr`: limb 0 of a
value `x < 2 ^ 256` is `x % 2 ^ 64`.  `limb0Modify f x` mirrors a Rust
mutation `repr.as_mut()[0] = f(repr.as_ref()[0])` (u64 arithmetic, hence
the final truncation). -/
def limb0Modify (f : Nat → Nat) (x : Nat) : Nat :=
  (x / 2 ^ 64) * 2 ^ 64 + (f (x % 2 ^ 64)) % 2 ^ 64

/-- `E::Fr::from_repr`: the source unwraps the decoding with
`.expect("should decode")`, which can only fail for a repr at or above the
modulus.  Every repr built by the gadget is either bounded by the value it
was derived from or is a small constant, so the reduction below never
fires on a reachable input and the total model agrees with the source. -/
def fr_from_repr (r : Nat) : Fr := r % fieldMod

/-- Field negation, for the `minus_one` selector coefficient. -/
def fr_neg (x : Fr) : Fr := (fieldMod - x % fieldMod) % fieldMod

/-- The error type surfaced by circuit construction. -/
inductive SynthesisError where
  | assignmentMissing
  | other (msg : String)
deriving DecidableEq, Repr

/-- Outcome of a circuit-construction step: a fatal abort (a Rust panic,
e.g. `unimplemented!()`), a recoverable `SynthesisError`, or success. -/
inductive Outcome (α : Type) where
  | fatal
  | err (e : SynthesisError)
  | ok (a : α)
deriving DecidableEq, Repr

/-- A gate recorded in the constraint trace.  Wires are variable indices;
coefficients are field elements. -/
inductive Gate where
  | rangeCheck32 (wires : List Nat)
  | in04Range (whichWire : Nat) (wires : List Nat)
  | mainGate (coeffs : List Fr) (wires : List Nat)
  | ternaryLcEq (coeffs : List Fr) (inputs : List Nat) (target : Nat)
  | allocVars (wires : List Nat)
  | lookup (tableName : String) (wires : List Nat)
deriving DecidableEq, Repr

/-- An emitted item: either a single gate on its own trace step or a
`begin_gates_batch_for_step … end_gates_batch_for_step` group. -/
inductive GateItem where
  | single (g : Gate)
  | batch (gs : List Gate)
deriving DecidableEq, Repr

/-- The constraint-system state: fresh-variable counter, the optional
witness assignment of each allocated variable (`none` in a setup /
verification pass), the emitted gate items, and the registered table
names. -/
structure CSState where
  nextVar : Nat
  witnesses : List (Option Fr)
  items : List GateItem
  tables : List String
deriving DecidableEq, Repr

def initialCS : CSState := { nextVar := 0, witnesses := [], items := [], tables := [] }

/-- Circuit construction: state in, outcome of a value and new state out. -/
def CircuitM (α : Type) : Type := CSState → Outcome (α × CSState)

def CircuitM.pure {α : Type} (a : α) : CircuitM α := fun st => .ok (a, st)

def CircuitM.bind {α β : Type} (m : CircuitM α) (k : α → CircuitM β) : CircuitM β :=
  fun st =>
    match m st with
    | .fatal => .fatal
    | .err e => .err e
    | .ok (a, st') => k a st'

instance instMonadCircuitM : Monad CircuitM where
  pure := CircuitM.pure
  bind := CircuitM.bind

/-- Structural effectful map used for the source's `for` loops. -/
def mapMC {α β : Type} (f : α → CircuitM β) : List α → CircuitM (List β)
  | [] => CircuitM.pure []
  | a :: as => do
      let b ← f a
      let bs ← mapMC f as
      CircuitM.pure (b :: bs)

/-- A Rust panic (`unimplemented!()`, a failed `unwrap`): aborts
construction, never returns an error value. -/
def fatal {α : Type} : CircuitM α := fun _ => .fatal

/-- Lift an `Except` result (e.g. a table query) into the monad; an error
propagates as a recoverable `SynthesisError` via `?`. -/
def liftResult {α : Type} (r : Except SynthesisError α) : CircuitM α :=
  fun st =>
    match r with
    | .ok a => .ok (a, st)
    | .error e => .err e

/-- An allocated circuit variable together with its optional witness. -/
structure AllocatedNum where
  idx : Nat
  value : Option Fr
deriving DecidableEq, Repr

/-- Modelled from the spec: `AllocatedNum::alloc`, variable allocation
with a value-producing closure.  A missing assignment leaves the variable
unassigned; allocation itself always succeeds. -/
def alloc (v : Option Fr) : CircuitM AllocatedNum :=
  fun st =>
    .ok (⟨st.nextVar, v⟩,
      { st with nextVar := st.nextVar + 1, witnesses := st.witnesses ++ [v] })

/-- Modelled from the spec: `AllocatedNum::alloc_zero`, the padding /
auxiliary zero variable. -/
def alloc_zero : CircuitM AllocatedNum := alloc (some 0)

/-- Emit one gate on its own trace step
(`new_single_gate_for_trace_step` or a standalone custom-gate call). -/
def emitSingle (g : Gate) : CircuitM Unit :=
  fun st => .ok ((), { st with items := st.items ++ [GateItem.single g] })

/-- Emit a `begin … end` gate batch as one item. -/
def emitBatch (gs : List Gate) : CircuitM Unit :=
  fun st => .ok ((), { st with items := st.items ++ [GateItem.batch gs] })

/-- Modelled from the spec: a registered lookup table: its name, the
number of wire slots its gate occupies (`width`), and the deterministic
query operation, total over the declared domain and failing outside it. -/
structure LookupTable where
  name : String
  width : Nat
  q : Fr → Except SynthesisError (List Fr)

/-- Modelled from the spec: `cs.add_table` registers a table with the
table-storage collaborator and returns its handle. -/
def add_table (t : LookupTable) : CircuitM LookupTable :=
  fun st => .ok (t, { st with tables := st.tables ++ [t.name] })

/-- `Num`: a compile-time field constant or an allocated variable. -/
inductive Num where
  | Constant (x : Fr)
  | Allocated (a : AllocatedNum)
deriving DecidableEq, Repr

/-- The witness-level value a `Num` stands for. -/
def numValue : Num → Option Fr
  | .Constant x => some x
  | .Allocated a => a.value

/-- `OverflowTracker`: how far a value may exceed the 32-bit range. -/
inductive OverflowTracker where
  | NoOverflow
  | OneBitOverflow
  | SmallOverflow
  | SignificantOverflow
deriving DecidableEq, Repr

/-- A circuit value with its overflow classification. -/
structure NumWithTracker where
  num : Num
  overflow_tracker : OverflowTracker
deriving DecidableEq, Repr

/-- `MajorityStrategy`: high-limb table policy for the Majority path. -/
inductive MajorityStrategy where
  | UseTwoTables
  | RawOverflowCheck
deriving DecidableEq, Repr

/-- The Choose-path bundle: one register in five simultaneous forms. -/
structure SparseChValue where
  normal : Num
  sparse : Num
  rot6 : Num
  rot11 : Num
  rot25 : Num
deriving DecidableEq, Repr

/-- The Majority-path bundle. -/
structure SparseMajValue where
  normal : Num
  sparse : Num
  rot2 : Num
  rot13 : Num
  rot22 : Num
deriving DecidableEq, Repr

def SHA256_GADGET_CHUNK_SIZE : Nat := 11
def SHA256_REG_WIDTH : Nat := 32
def CH_BASE_DEFAULT_NUM_OF_CHUNKS : Nat := 4
def MAJ_BASE_DEFAULT_NUM_OF_CHUNKS : Nat := 6

/-- Modelled from the spec: the Choose path works in radix 7
(`SHA256_CHOOSE_BASE` lives in the `tables` module, outside the source
slice). -/
def SHA256_CHOOSE_BASE : Nat := 7

/-- Modelled from the spec: the Majority path works in radix 4. -/
def SHA256_MAJORITY_BASE : Nat := 4

/-- Right rotation inside the 32-bit register. -/
def rotr32 (x r : Nat) : Nat :=
  if r = 0 then x else (x >>> r) + ((x <<< (32 - r)) % 2 ^ 32)

/-- Modelled from the spec: `rotate_extract` from the missing
`sha256/utils` module.  A nonzero `extraction` first truncates the value
to its low `extraction` bits (the spec's "truncating (extracting) a top
bit to absorb overflow": a 10-bit extraction of an 11-bit chunk discards
its top bit); the result is then rotated right within the 32-bit
register. -/
def rotate_extract (value rotation extraction : Nat) : Nat :=
  let temp := if extraction > 0 then value % 2 ^ extraction else value
  rotr32 temp rotation

/-- Modelled from the spec: `map_into_sparse_form` from the missing
`sha256/utils` module maps a 32-bit word digit-wise into a higher radix:
bit `i` becomes the coefficient of `base ^ i`.  The gadget also calls it
with sparse base 0 to mean a plain binary (untranslated) chunk, so bases
below 2 act as the identity. -/
def map_into_sparse_form (input sparse_base : Nat) : Nat :=
  if sparse_base ≤ 1 then input
  else (List.range 32).foldl (fun acc i => acc + ((input >>> i) % 2) * sparse_base ^ i) 0

/-- Decode a sparse-radix encoding back to the binary word: each radix
digit is mapped back to its bit value (digits of a pure encoding are 0 or
1; the parity of the digit is its bit value). -/
def sparse_decode (base x : Nat) : Nat :=
  (List.range 32).foldl (fun acc i => acc + (((x / base ^ i) % base) % 2) * 2 ^ i) 0

/-- Modelled from the spec: the query of a rotate-extract table
(`Sha256SparseRotateTable::new(11, rot, extr, base, name)`): the key is an
11-bit chunk; both outputs are computed from the extracted chunk — its
sparse encoding, and the sparse encoding of its rotation. -/
def sparseRotateQuery (rot extr base : Nat) (key : Fr) :
    Except SynthesisError (List Fr) :=
  if key < 2 ^ 11 then
    let extracted := if extr > 0 then key % 2 ^ extr else key
    .ok [map_into_sparse_form extracted base,
         map_into_sparse_form (rotr32 extracted rot) base]
  else .error (.other "key outside table domain")

/-- Digit map of the Choose normalization table: a digit is the weighted
sum `e + 2*f + 3*g` of three bits and is mapped to `Ch(e, f, g)`. -/
def chNormDigit (d : Nat) : Nat :=
  if d = 3 ∨ d = 5 ∨ d = 6 then 1 else 0

/-- Digit map of the Majority normalization table: a digit is the bit sum
`a + b + c` and is mapped to 1 exactly when the sum reaches the majority
threshold 2. -/
def majNormDigit (d : Nat) : Nat := if 2 ≤ d then 1 else 0

/-- Parity digit map of the XOR/merge tables. -/
def xorNormDigit (d : Nat) : Nat := d % 2

/-- Modelled from the spec: a normalization table over `num_of_chunks`
digits of the given radix maps each digit through the boolean digit map
`f` and recombines the images with binary weights. -/
def normalizationQuery (base num_of_chunks : Nat) (f : Nat → Nat) (key : Fr) :
    Except SynthesisError (List Fr) :=
  if key < base ^ num_of_chunks then
    .ok [(List.range num_of_chunks).foldl
          (fun acc i => acc + f ((key / base ^ i) % base) * 2 ^ i) 0]
  else .error (.other "key outside table domain")

/-- Per-circuit configuration: the chosen majority strategy, the two
normalization chunk counts, and the eight table handles (the radix-4
10-bit-extraction table is present only under `UseTwoTables`). -/
structure Sha256GadgetParams where
  majority_strategy : MajorityStrategy
  ch_base_num_of_chunks : Nat
  maj_base_num_of_chunks : Nat
  sha256_base7_rot6_table : LookupTable
  sha256_base7_rot3_extr10_table : LookupTable
  sha256_ch_normalization_table : LookupTable
  sha256_ch_xor_table : LookupTable
  sha256_base4_rot2_table : LookupTable
  sha256_base4_rot2_extr10_table : Option LookupTable
  sha256_maj_normalization_table : LookupTable
  sha256_maj_xor_table : LookupTable

/-- `Sha256GadgetParams::new`: builds and registers the lookup tables in
source order; the radix-4 10-bit-extraction rotate table is built and
registered only under the `UseTwoTables` strategy. -/
def Sha256GadgetParams.new (majority_strategy : MajorityStrategy)
    (ch_chunks maj_chunks : Option Nat) : CircuitM Sha256GadgetParams := do
  let ch_base_num_of_chunks := ch_chunks.getD CH_BASE_DEFAULT_NUM_OF_CHUNKS
  let maj_base_num_of_chunks := maj_chunks.getD MAJ_BASE_DEFAULT_NUM_OF_CHUNKS
  let t1 : LookupTable :=
    ⟨"sha256_base7_rot6_table", 3, sparseRotateQuery 6 0 SHA256_CHOOSE_BASE⟩
  let t2 : LookupTable :=
    ⟨"sha256_base7_rot3_extr10_table", 3,
      sparseRotateQuery 3 (SHA256_GADGET_CHUNK_SIZE - 1) SHA256_CHOOSE_BASE⟩
  let t3 : LookupTable :=
    ⟨"sha256_base4_rot2_table", 3, sparseRotateQuery 2 0 SHA256_MAJORITY_BASE⟩
  let sha256_base7_rot6_table ← add_table t1
  let sha256_base7_rot3_extr10_table ← add_table t2
  let sha256_base4_rot2_table ← add_table t3
  let sha256_base4_rot2_extr10_table ←
    match majority_strategy with
    | .RawOverflowCheck => CircuitM.pure none
    | .UseTwoTables => do
        let t4 : LookupTable :=
          ⟨"sha256_base4_rot2_extr10_table", 3,
            sparseRotateQuery 2 (SHA256_GADGET_CHUNK_SIZE - 1) SHA256_MAJORITY_BASE⟩
        let t4r ← add_table t4
        CircuitM.pure (some t4r)
  let t5 : LookupTable :=
    ⟨"sha256_ch_normalization_table", 3,
      normalizationQuery SHA256_CHOOSE_BASE ch_base_num_of_chunks chNormDigit⟩
  let t6 : LookupTable :=
    ⟨"sha256_maj_normalization_table", 3,
      normalizationQuery SHA256_MAJORITY_BASE maj_base_num_of_chunks majNormDigit⟩
  let t7 : LookupTable :=
    ⟨"sha256_ch_xor_table", 3,
      normalizationQuery SHA256_CHOOSE_BASE ch_base_num_of_chunks xorNormDigit⟩
  let t8 : LookupTable :=
    ⟨"sha256_maj_xor_table", 3,
      normalizationQuery SHA256_MAJORITY_BASE maj_base_num_of_chunks xorNormDigit⟩
  let sha256_ch_normalization_table ← add_table t5
  let sha256_maj_normalization_table ← add_table t6
  let sha256_ch_xor_table ← add_table t7
  let sha256_maj_xor_table ← add_table t8
  CircuitM.pure
    { majority_strategy, ch_base_num_of_chunks, maj_base_num_of_chunks,
      sha256_base7_rot6_table, sha256_base7_rot3_extr10_table,
      sha256_ch_normalization_table, sha256_ch_xor_table,
      sha256_base4_rot2_table, sha256_base4_rot2_extr10_table,
      sha256_maj_normalization_table, sha256_maj_xor_table }

/-- Helper for indexing the limb list of the overflow extractor (Rust
vector indexing; every access below is in bounds). -/
def getA (l : List AllocatedNum) (i : Nat) : AllocatedNum := l.getD i ⟨0, none⟩

/-- `extract_32_from_constant`: mask the low limb to 32 bits for the
extracted value (the source's masks by `(1 << k) - 1` are embedded as
reduction modulo `2 ^ k`); the source then shifts the cloned `of_l_repr` /
`of_h_repr` but decodes `repr` — the already masked representation — for
all three returned components. -/
def extract_32_from_constant (x : Fr) : Fr × Fr × Fr :=
  let repr := x
  let of_l_repr := repr
  let of_h_repr := repr
  let repr := limb0Modify (fun l => l % 2 ^ 32) repr
  let extracted := fr_from_repr repr
  let _of_l_repr := limb0Modify (fun l => (l >>> 32) % 4) of_l_repr
  let of_l := fr_from_repr repr
  let _of_h_repr := limb0Modify (fun l => l >>> 34) of_h_repr
  let of_h := fr_from_repr repr
  (extracted, of_l, of_h)

/-- `extact_32_from_overflowed_num` (source spelling): the 32-bit
extraction of a value carrying at most a 4-bit overflow. -/
def extact_32_from_overflowed_num (var : Num) : CircuitM Num := do
  match var with
  | .Constant x => CircuitM.pure (.Constant (extract_32_from_constant x).1)
  | .Allocated x => do
      let zeroVar ← alloc_zero
      let limbs ← mapMC (fun i =>
        alloc (x.value.map (fun elem =>
          fr_from_repr (limb0Modify (fun l => l >>> (30 - 2 * i)) elem)))) (List.range 16)
      let vars := zeroVar :: limbs
      let _ ← mapMC (fun i =>
        emitSingle (.rangeCheck32
          [(getA vars (4 * i)).idx, (getA vars (4 * i + 1)).idx,
           (getA vars (4 * i + 2)).idx, (getA vars (4 * i + 3)).idx])) (List.range 4)
      let ofPair : Option Fr × Option Fr :=
        match x.value with
        | none => (none, none)
        | some elem =>
            let temp := extract_32_from_constant elem
            (some temp.2.1, some temp.2.2)
      let of_l_var ← alloc ofPair.1
      let of_h_var ← alloc ofPair.2
      let ws := [x.idx, of_l_var.idx, of_h_var.idx, (getA vars 15).idx]
      emitBatch
        [ .in04Range 1 ws,
          .in04Range 2 ws,
          .mainGate
            [fr_neg 1, fr_from_repr (1 <<< 32), fr_from_repr (1 <<< 34), 1, 0, 0, 0]
            ws ]
      CircuitM.pure (.Allocated (getA vars 16))

/-- `converter_helper`: sparse form of the rotated/extracted word. -/
def converter_helper (n sparse_base rotation extraction : Nat) : Fr :=
  fr_from_repr (map_into_sparse_form (rotate_extract n rotation extraction) sparse_base)

/-- `allocate_converted_num`: allocate a fresh variable carrying the
converted chunk of the witness (chunk selection reads the low repr
limb). -/
def allocate_converted_num (var : AllocatedNum)
    (chunk_bitlen chunk_num sparse_base rotation extraction : Nat) :
    CircuitM AllocatedNum :=
  alloc (var.value.map (fun fr =>
    converter_helper (((fr % 2 ^ 64) >>> (chunk_bitlen * chunk_num)) % 2 ^ chunk_bitlen)
      sparse_base rotation extraction))

/-- `query_table1`: single-output table query.  An unassigned key leaves
the output unassigned; the whole call emits one gate batch binding
`[key, output, padding, padding]` — truncated to the table's width — to
the table. -/
def query_table1 (table : LookupTable) (key : AllocatedNum) :
    CircuitM AllocatedNum := do
  let res ←
    match key.value with
    | none => alloc none
    | some val => do
        let outs ← liftResult (table.q val)
        match outs with
        | [] => fatal
        | o :: _ => alloc (some o)
  let dummy ← alloc_zero
  let vars := [key.idx, res.idx, dummy.idx, dummy.idx]
  emitBatch [.allocVars vars, .lookup table.name (vars.take table.width)]
  CircuitM.pure res

/-- `query_table2`: two-output table query, same batch protocol. -/
def query_table2 (table : LookupTable) (key : AllocatedNum) :
    CircuitM (AllocatedNum × AllocatedNum) := do
  let res ←
    match key.value with
    | none => do
        let a ← alloc none
        let b ← alloc none
        CircuitM.pure (a, b)
    | some val => do
        let outs ← liftResult (table.q val)
        match outs with
        | o0 :: o1 :: _ => do
            let a ← alloc (some o0)
            let b ← alloc (some o1)
            CircuitM.pure (a, b)
        | _ => fatal
  let dummy ← alloc_zero
  let vars := [key.idx, res.1.idx, res.2.idx, dummy.idx]
  emitBatch [.allocVars vars, .lookup table.name (vars.take table.width)]
  CircuitM.pure res

/-- `u64_exp_to_ff`: returns `n ^ exp` if `exp` is nonzero and the field
embedding of `n` itself otherwise. -/
def u64_exp_to_ff (n exp : Nat) : Fr :=
  let res := fr_from_repr (n % 2 ^ 64)
  if exp ≠ 0 then res ^ exp % fieldMod else res

/-- Modelled from the spec: `AllocatedNum::ternary_lc_eq`, the
single-output linear-equality gate asserting that the weighted sum of
three inputs equals the target. -/
def ternary_lc_eq (coeffs : List Fr) (inputs : List AllocatedNum)
    (target : AllocatedNum) : CircuitM Unit :=
  emitSingle (.ternaryLcEq coeffs (inputs.map (fun a => a.idx)) target.idx)

/-- Body of the Choose-path converter after overflow dispatch. -/
def convert_chooser_core (params : Sha256GadgetParams) (var : Num) :
    CircuitM SparseChValue := do
  match var with
  | .Constant x =>
      let n := (x % 2 ^ 64) % 2 ^ 32
      CircuitM.pure
        { normal := .Constant x,
          sparse := .Constant (converter_helper n SHA256_CHOOSE_BASE 0 0),
          rot6 := .Constant (converter_helper n SHA256_CHOOSE_BASE 6 0),
          rot11 := .Constant (converter_helper n SHA256_CHOOSE_BASE 11 0),
          rot25 := .Constant (converter_helper n SHA256_CHOOSE_BASE 25 0) }
  | .Allocated var => do
      let low ← allocate_converted_num var SHA256_GADGET_CHUNK_SIZE 0 0 0 0
      let mid ← allocate_converted_num var SHA256_GADGET_CHUNK_SIZE 1 0 0 0
      let high ← allocate_converted_num var SHA256_GADGET_CHUNK_SIZE 2 0 0
        (SHA256_GADGET_CHUNK_SIZE - 1)
      let (sparse_low, sparse_low_rot6) ← query_table2 params.sha256_base7_rot6_table low
      let (sparse_mid, _sparse_mid_rot6) ← query_table2 params.sha256_base7_rot6_table mid
      let (sparse_high, sparse_high_rot3) ←
        query_table2 params.sha256_base7_rot3_extr10_table high
      ternary_lc_eq
        [1, u64_exp_to_ff (1 <<< 11) 0, u64_exp_to_ff (1 <<< 22) 0]
        [low, mid, high] var
      let full_normal := var
      let sparse_full ← allocate_converted_num var SHA256_REG_WIDTH 0
        SHA256_CHOOSE_BASE 0 (SHA256_REG_WIDTH - 1)
      ternary_lc_eq
        [1, u64_exp_to_ff 7 11, u64_exp_to_ff 7 22]
        [sparse_low, sparse_mid, sparse_high] sparse_full
      let full_sparse_rot6 ← allocate_converted_num var SHA256_REG_WIDTH 0
        SHA256_CHOOSE_BASE 6 (SHA256_REG_WIDTH - 1)
      ternary_lc_eq
        [1, u64_exp_to_ff 7 (11 - 6), u64_exp_to_ff 7 (22 - 6)]
        [sparse_low_rot6, sparse_mid, sparse_high] full_sparse_rot6
      let full_sparse_rot11 ← allocate_converted_num var SHA256_REG_WIDTH 0
        SHA256_CHOOSE_BASE 11 (SHA256_REG_WIDTH - 1)
      ternary_lc_eq
        [1, u64_exp_to_ff 7 (32 - 11), u64_exp_to_ff 7 (22 - 11)]
        [sparse_mid, sparse_low, sparse_high] full_sparse_rot11
      let full_sparse_rot25 ← allocate_converted_num var SHA256_REG_WIDTH 0
        SHA256_CHOOSE_BASE 25 (SHA256_REG_WIDTH - 1)
      ternary_lc_eq
        [1, u64_exp_to_ff 7 (32 - 25), u64_exp_to_ff 7 (32 - 25 + 11)]
        [sparse_high_rot3, sparse_low, sparse_high] full_sparse_rot25
      CircuitM.pure
        { normal := .Allocated full_normal,
          sparse := .Allocated sparse_full,
          rot6 := .Allocated full_sparse_rot6,
          rot11 := .Allocated full_sparse_rot11,
          rot25 := .Allocated full_sparse_rot25 }

/-- `convert_into_sparse_chooser_form`: overflow dispatch followed by the
Choose-path body. -/
def convert_into_sparse_chooser_form (params : Sha256GadgetParams)
    (input : NumWithTracker) : CircuitM SparseChValue := do
  let var ←
    match input.overflow_tracker with
    | .SignificantOverflow => fatal
    | .SmallOverflow => extact_32_from_overflowed_num input.num
    | _ => CircuitM.pure input.num
  convert_chooser_core params var

/-- Body of the Majority-path converter after overflow dispatch. -/
def convert_majority_core (params : Sha256GadgetParams) (var : Num) :
    CircuitM SparseMajValue := do
  match var with
  | .Constant x =>
      let n := (x % 2 ^ 64) % 2 ^ 32
      CircuitM.pure
        { normal := .Constant x,
          sparse := .Constant (converter_helper n SHA256_MAJORITY_BASE 0 0),
          rot2 := .Constant (converter_helper n SHA256_MAJORITY_BASE 2 0),
          rot13 := .Constant (converter_helper n SHA256_MAJORITY_BASE 13 0),
          rot22 := .Constant (converter_helper n SHA256_MAJORITY_BASE 22 0) }
  | .Allocated var => do
      let low ← allocate_converted_num var SHA256_GADGET_CHUNK_SIZE 0 0 0 0
      let mid ← allocate_converted_num var SHA256_GADGET_CHUNK_SIZE 1 0 0 0
      let high ← allocate_converted_num var SHA256_GADGET_CHUNK_SIZE 2 0 0
        (SHA256_GADGET_CHUNK_SIZE - 1)
      let (sparse_low, sparse_low_rot2) ← query_table2 params.sha256_base4_rot2_table low
      let (sparse_mid, sparse_mid_rot2) ← query_table2 params.sha256_base4_rot2_table mid
      let high_chunk_table ←
        match params.majority_strategy with
        | .UseTwoTables =>
            match params.sha256_base4_rot2_extr10_table with
            | some t => CircuitM.pure t
            | none => fatal
        | .RawOverflowCheck => CircuitM.pure params.sha256_base4_rot2_table
      let (sparse_high, _sparse_high_rot2) ← query_table2 high_chunk_table high
      ternary_lc_eq
        [1, u64_exp_to_ff (1 <<< 11) 0, u64_exp_to_ff (1 <<< 22) 0]
        [low, mid, high] var
      let full_normal := var
      let sparse_full ← allocate_converted_num var SHA256_REG_WIDTH 0
        SHA256_MAJORITY_BASE 0 (SHA256_REG_WIDTH - 1)
      ternary_lc_eq
        [1, u64_exp_to_ff 4 11, u64_exp_to_ff 4 22]
        [sparse_low, sparse_mid, sparse_high] sparse_full
      let full_sparse_rot2 ← allocate_converted_num var SHA256_REG_WIDTH 0
        SHA256_CHOOSE_BASE 2 (SHA256_REG_WIDTH - 1)
      ternary_lc_eq
        [1, u64_exp_to_ff 4 (11 - 2), u64_exp_to_ff 4 (22 - 6)]
        [sparse_low_rot2, sparse_mid, sparse_high] full_sparse_rot2
      let full_sparse_rot13 ← allocate_converted_num var SHA256_REG_WIDTH 0
        SHA256_CHOOSE_BASE 13 (SHA256_REG_WIDTH - 1)
      ternary_lc_eq
        [1, u64_exp_to_ff 4 (32 - 2 - 11), u64_exp_to_ff 4 (22 - 2 - 11)]
        [sparse_mid_rot2, sparse_low, sparse_high] full_sparse_rot13
      let full_sparse_rot22 ← allocate_converted_num var SHA256_REG_WIDTH 0
        SHA256_CHOOSE_BASE 22 (SHA256_REG_WIDTH - 1)
      ternary_lc_eq
        [1, u64_exp_to_ff 4 (32 - 22), u64_exp_to_ff 4 (32 - 22 + 11)]
        [sparse_high, sparse_low, sparse_mid] full_sparse_rot22
      CircuitM.pure
        { normal := .Allocated full_normal,
          sparse := .Allocated sparse_full,
          rot2 := .Allocated full_sparse_rot2,
          rot13 := .Allocated full_sparse_rot13,
          rot22 := .Allocated full_sparse_rot22 }

/-- `convert_into_sparse_majority_form`: overflow/strategy dispatch
followed by the Majority-path body. -/
def convert_into_sparse_majority_form (params : Sha256GadgetParams)
    (input : NumWithTracker) : CircuitM SparseMajValue := do
  let var ←
    match input.overflow_tracker, params.majority_strategy with
    | .SignificantOverflow, _ => fatal
    | .SmallOverflow, _ => extact_32_from_overflowed_num input.num
    | .OneBitOverflow, .RawOverflowCheck => extact_32_from_overflowed_num input.num
    | _, _ => CircuitM.pure input.num
  convert_majority_core params var

/-- The value produced by a circuit-construction run, when it succeeds. -/
def runValue {α : Type} (m : CircuitM α) (st : CSState) : Option α :=
  match m st with
  | .ok (a, _) => some a
  | _ => none

/-- The final state of a successful run (the start state otherwise). -/
def runState {α : Type} (m : CircuitM α) (st : CSState) : CSState :=
  match m st with
  | .ok (_, st') => st'
  | _ => st

/-- The gate items emitted by a successful run. -/
def runItems {α : Type} (m : CircuitM α) (st : CSState) : List GateItem :=
  (runState m st).items

/-- Witness lookup in a final state. -/
def witnessAt (st : CSState) (i : Nat) : Option Fr := st.witnesses.getD i none

/-- Whether the witness assignment of a state satisfies a
`ternary_lc_eq` gate: the weighted sum of the input wires must equal the
target wire, as field elements.  Gates with an unassigned wire and gates
of other kinds are not judged here. -/
def lcGateHolds (st : CSState) : Gate → Bool
  | .ternaryLcEq coeffs inputs target =>
      match inputs.mapM (witnessAt st), witnessAt st target with
      | some vals, some t =>
          ((coeffs.zip vals).foldl (fun acc cv => acc + cv.1 * cv.2) 0) % fieldMod
            == t % fieldMod
      | _, _ => true
  | _ => true

/-- A one-variable start state: variable 0 is allocated and carries the
witness `v`. -/
def oneVarCS (v : Option Fr) : CSState :=
  { nextVar := 1, witnesses := [v], items := [], tables := [] }

/-- The parameters produced by `Sha256GadgetParams::new` for a strategy
(with default chunk counts, on a fresh constraint system).  Registration
always succeeds, so the fallback branch is unreachable. -/
def paramsOf (strategy : MajorityStrategy) : Sha256GadgetParams :=
  match Sha256GadgetParams.new strategy none none initialCS with
  | .ok (p, _) => p
  | _ =>
    { majority_strategy := strategy,
      ch_base_num_of_chunks := 0, maj_base_num_of_chunks := 0,
      sha256_base7_rot6_table := ⟨"", 0, fun _ => .error .assignmentMissing⟩,
      sha256_base7_rot3_extr10_table := ⟨"", 0, fun _ => .error .assignmentMissing⟩,
      sha256_ch_normalization_table := ⟨"", 0, fun _ => .error .assignmentMissing⟩,
      sha256_ch_xor_table := ⟨"", 0, fun _ => .error .assignmentMissing⟩,
      sha256_base4_rot2_table := ⟨"", 0, fun _ => .error .assignmentMissing⟩,
      sha256_base4_rot2_extr10_table := none,
      sha256_maj_normalization_table := ⟨"", 0, fun _ => .error .assignmentMissing⟩,
      sha256_maj_xor_table := ⟨"", 0, fun _ => .error .assignmentMissing⟩ }

/-- The table names registered by `Sha256GadgetParams::new` for a
strategy, in registration order. -/
def tablesOf (strategy : MajorityStrategy) : List String :=
  (runState (Sha256GadgetParams.new strategy none none) initialCS).tables

/-- C9: whenever a value tagged `SignificantOverflow` reaches a sparse
conversion entry point — Choose path or Majority path, the latter under
every `MajorityStrategy` since the parameters are arbitrary — circuit
construction aborts fatally and synchronously; it never returns a
recoverable error value and never silently truncates the input. -/
theorem c9_significant_overflow_aborts (params : Sha256GadgetParams)
    (num : Num) (st : CSState) :
    convert_into_sparse_chooser_form params ⟨num, .SignificantOverflow⟩ st = .fatal ∧
    convert_into_sparse_majority_form params ⟨num, .SignificantOverflow⟩ st = .fatal :=
  ⟨rfl, rfl⟩

/-- C10: `u64_exp_to_ff n 0` is the field embedding of `n` itself (not
`n ^ 0 = 1`), `u64_exp_to_ff n exp` is the field power `n ^ exp` for
every positive exponent, and the binary recombination weights `2 ^ 11`
and `2 ^ 22` of the converters arise from the already computed powers
`1 <<< 11` and `1 <<< 22` passed as the base together with exponent 0. -/
theorem c10_u64_exp_to_ff_exponent_zero (n exp : Nat)
    (hn : n < 2 ^ 64) (he : 0 < exp) :
    u64_exp_to_ff n 0 = n ∧
    u64_exp_to_ff n exp = n ^ exp % fieldMod ∧
    u64_exp_to_ff (1 <<< 11) 0 = 2 ^ 11 ∧
    u64_exp_to_ff (1 <<< 22) 0 = 2 ^ 22 := by
  have hmod : (2 : Nat) ^ 64 < fieldMod := by norm_num [fieldMod]
  have h1 : n % 2 ^ 64 = n := Nat.mod_eq_of_lt hn
  have h2 : n % fieldMod = n := Nat.mod_eq_of_lt (lt_trans hn hmod)
  have e0 : u64_exp_to_ff n 0 = n % 2 ^ 64 % fieldMod := rfl
  have epos : u64_exp_to_ff n exp = (n % 2 ^ 64 % fieldMod) ^ exp % fieldMod := by
    show (if exp ≠ 0 then (n % 2 ^ 64 % fieldMod) ^ exp % fieldMod
          else n % 2 ^ 64 % fieldMod) = (n % 2 ^ 64 % fieldMod) ^ exp % fieldMod
    rw [if_pos (Nat.pos_iff_ne_zero.mp he)]
  exact ⟨by rw [e0, h1, h2], by rw [epos, h1, h2], by decide, by decide⟩

/-- Witness for C10 at `n = 3`, `exp = 2`. -/
theorem c10_u64_exp_to_ff_exponent_zero_witness :
    3 < 2 ^ 64 ∧ 0 < 2 ∧
    (u64_exp_to_ff 3 0 = 3 ∧
     u64_exp_to_ff 3 2 = 3 ^ 2 % fieldMod ∧
     u64_exp_to_ff (1 <<< 11) 0 = 2 ^ 11 ∧
     u64_exp_to_ff (1 <<< 22) 0 = 2 ^ 22) :=
  ⟨by decide, by decide, c10_u64_exp_to_ff_exponent_zero 3 2 (by decide) (by decide)⟩

set_option maxHeartbeats 800000 in
/-- C1, refuted at the admissible input `x = 2 ^ 32 + 5` (a 4-bit-range
overflow, tracker at most `SmallOverflow`): `extract_32_from_constant`
decodes the masked representation for all three of its outputs, so both
claimed overflow residues equal `x mod 2 ^ 32 = 5` instead of the 2-bit
digits 1 and 0; the allocated path returns the 17th limb variable (index
17), whose witness is the unreduced `x` itself rather than
`x mod 2 ^ 32`; and the linear main gate is laid over wire 16 — the 16th
limb, of witness `x >>> 2` — not over the returned result wire 17. -/
theorem c1_overflow_extraction_bug :
    extract_32_from_constant (2 ^ 32 + 5) = (5, 5, 5) ∧
    (2 ^ 32 + 5) % 2 ^ 32 = 5 ∧
    runValue (extact_32_from_overflowed_num (.Allocated ⟨0, some (2 ^ 32 + 5)⟩))
        (oneVarCS (some (2 ^ 32 + 5)))
      = some (.Allocated ⟨17, some (2 ^ 32 + 5)⟩) ∧
    (runItems (extact_32_from_overflowed_num (.Allocated ⟨0, some (2 ^ 32 + 5)⟩))
        (oneVarCS (some (2 ^ 32 + 5)))).getD 4 (.single (.rangeCheck32 []))
      = .batch
          [.in04Range 1 [0, 18, 19, 16],
           .in04Range 2 [0, 18, 19, 16],
           .mainGate [fr_neg 1, 2 ^ 32, 2 ^ 34, 1, 0, 0, 0] [0, 18, 19, 16]] ∧
    witnessAt (runState (extact_32_from_overflowed_num (.Allocated ⟨0, some (2 ^ 32 + 5)⟩))
        (oneVarCS (some (2 ^ 32 + 5)))) 16
      = some (2 ^ 30 + 1) := by
  refine ⟨by decide, by decide, ?_, ?_, ?_⟩ <;>
    (simp [runValue, runState, runItems, witnessAt, extact_32_from_overflowed_num,
           extract_32_from_constant, mapMC, alloc, alloc_zero, emitSingle, emitBatch,
           CircuitM.bind, CircuitM.pure, instMonadCircuitM, oneVarCS, getA,
           fr_from_repr, fr_neg, limb0Modify, fieldMod, List.range, List.range.loop]
     <;> decide)

set_option maxHeartbeats 800000 in
/-- C6, refuted at the underlying overflowed value `2 ^ 32 + 1`: the
Constant path of the 32-bit extraction yields the reduced constant 1 and
emits zero gates, while the Allocated path of the same entry point, for
the same value, returns a variable whose witness is the unreduced
`2 ^ 32 + 1` — so the two paths do not produce identical final values. -/
theorem c6_constant_allocated_parity_fails :
    runValue (extact_32_from_overflowed_num (.Constant (2 ^ 32 + 1))) initialCS
      = some (.Constant 1) ∧
    runItems (extact_32_from_overflowed_num (.Constant (2 ^ 32 + 1))) initialCS = [] ∧
    (runValue (extact_32_from_overflowed_num (.Allocated ⟨0, some (2 ^ 32 + 1)⟩))
        (oneVarCS (some (2 ^ 32 + 1)))).map numValue
      = some (some (2 ^ 32 + 1)) ∧
    (1 : Fr) ≠ 2 ^ 32 + 1 := by
  refine ⟨?_, ?_, ?_, by decide⟩ <;>
    (simp [runValue, runState, runItems, numValue, extact_32_from_overflowed_num,
           extract_32_from_constant, mapMC, alloc, alloc_zero, emitSingle, emitBatch,
           CircuitM.bind, CircuitM.pure, instMonadCircuitM, oneVarCS, initialCS, getA,
           fr_from_repr, fr_neg, limb0Modify, fieldMod, List.range, List.range.loop]
     <;> decide)

set_option maxHeartbeats 1600000 in
/-- C2, refuted at the allocated input with witness 1 (tracker
`NoOverflow`): the full Choose-path trace shows the rot25 linear gate
reading wires 11, 4 and 10 — the rotated high limb, the low limb and,
again, the raw high limb — while wire 7, the sparse mid limb allocated by
the second lookup batch, never appears in it; so the three limb-level
sparse values do not each appear exactly once in that gate. -/
theorem c2_rot25_gate_misses_mid_limb :
    runItems (convert_into_sparse_chooser_form (paramsOf .UseTwoTables)
        ⟨.Allocated ⟨0, some 1⟩, .NoOverflow⟩) (oneVarCS (some 1))
      = [.batch [.allocVars [1, 4, 5, 6], .lookup "sha256_base7_rot6_table" [1, 4, 5]],
         .batch [.allocVars [2, 7, 8, 9], .lookup "sha256_base7_rot6_table" [2, 7, 8]],
         .batch [.allocVars [3, 10, 11, 12],
                 .lookup "sha256_base7_rot3_extr10_table" [3, 10, 11]],
         .single (.ternaryLcEq [1, 2 ^ 11, 2 ^ 22] [1, 2, 3] 0),
         .single (.ternaryLcEq [1, 7 ^ 11, 7 ^ 22] [4, 7, 10] 13),
         .single (.ternaryLcEq [1, 7 ^ 5, 7 ^ 16] [5, 7, 10] 14),
         .single (.ternaryLcEq [1, 7 ^ 21, 7 ^ 11] [7, 4, 10] 15),
         .single (.ternaryLcEq [1, 7 ^ 7, 7 ^ 18] [11, 4, 10] 16)] ∧
    7 ∉ ([11, 4, 10] : List Nat) := by
  refine ⟨?_, by decide⟩
  simp [runValue, runState, runItems, convert_into_sparse_chooser_form,
        convert_chooser_core, allocate_converted_num, converter_helper,
        query_table2, ternary_lc_eq, u64_exp_to_ff, mapMC, alloc, alloc_zero,
        emitSingle, emitBatch, liftResult, CircuitM.bind, CircuitM.pure,
        instMonadCircuitM, oneVarCS, initialCS, getA, fr_from_repr, fr_neg,
        limb0Modify, fieldMod, paramsOf, Sha256GadgetParams.new, add_table,
        sparseRotateQuery, map_into_sparse_form, rotate_extract, rotr32,
        SHA256_CHOOSE_BASE, SHA256_MAJORITY_BASE, SHA256_GADGET_CHUNK_SIZE,
        SHA256_REG_WIDTH, List.range, List.range.loop]

set_option maxHeartbeats 1600000 in
/-- C3, refuted at the allocated input with witness 1 (tracker
`NoOverflow`, strategy `UseTwoTables`): the rot2 gate's third coefficient
is `4 ^ 16` (the source computes `4 ^ (22 - 6)`), not the radix-4
positional power `4 ^ 20` matching rotation 2; and the rot2 target is
allocated as a radix-7 encoding — its witness is `7 ^ 30`, not the
radix-4 encoding `4 ^ 30` of the rotation — so decoding it as the claimed
radix-4 value does not give the input rotated right by 2. -/
theorem c3_majority_rotation_targets_in_base7 :
    runItems (convert_into_sparse_majority_form (paramsOf .UseTwoTables)
        ⟨.Allocated ⟨0, some 1⟩, .NoOverflow⟩) (oneVarCS (some 1))
      = [.batch [.allocVars [1, 4, 5, 6], .lookup "sha256_base4_rot2_table" [1, 4, 5]],
         .batch [.allocVars [2, 7, 8, 9], .lookup "sha256_base4_rot2_table" [2, 7, 8]],
         .batch [.allocVars [3, 10, 11, 12],
                 .lookup "sha256_base4_rot2_extr10_table" [3, 10, 11]],
         .single (.ternaryLcEq [1, 2 ^ 11, 2 ^ 22] [1, 2, 3] 0),
         .single (.ternaryLcEq [1, 4 ^ 11, 4 ^ 22] [4, 7, 10] 13),
         .single (.ternaryLcEq [1, 4 ^ 9, 4 ^ 16] [5, 7, 10] 14),
         .single (.ternaryLcEq [1, 4 ^ 19, 4 ^ 9] [8, 4, 10] 15),
         .single (.ternaryLcEq [1, 4 ^ 10, 4 ^ 21] [10, 4, 7] 16)] ∧
    (runValue (convert_into_sparse_majority_form (paramsOf .UseTwoTables)
        ⟨.Allocated ⟨0, some 1⟩, .NoOverflow⟩) (oneVarCS (some 1))).map
        (fun r => numValue r.rot2)
      = some (some (7 ^ 30)) ∧
    map_into_sparse_form (rotr32 1 2) SHA256_MAJORITY_BASE = 4 ^ 30 ∧
    sparse_decode 4 (7 ^ 30) ≠ rotr32 1 2 ∧
    (4 : Nat) ^ 16 ≠ 4 ^ 20 := by
  refine ⟨?_, ?_, by decide, by decide, by decide⟩ <;>
    simp [runValue, runState, runItems, numValue, convert_into_sparse_majority_form,
          convert_majority_core, allocate_converted_num, converter_helper,
          query_table2, ternary_lc_eq, u64_exp_to_ff, mapMC, alloc, alloc_zero,
          emitSingle, emitBatch, liftResult, CircuitM.bind, CircuitM.pure,
          instMonadCircuitM, oneVarCS, initialCS, getA, fr_from_repr, fr_neg,
          limb0Modify, fieldMod, paramsOf, Sha256GadgetParams.new, add_table,
          sparseRotateQuery, map_into_sparse_form, rotate_extract, rotr32,
          SHA256_CHOOSE_BASE, SHA256_MAJORITY_BASE, SHA256_GADGET_CHUNK_SIZE,
          SHA256_REG_WIDTH, List.range, List.range.loop]

set_option maxHeartbeats 1600000 in
/-- C4, refuted at the allocated input with witness `2 ^ 32` (tracker
`OneBitOverflow`, admissible on the Choose path without prior
extraction): the recombination gate is indeed emitted against the input
variable (wire 0), but the high limb is already truncated to 10 bits at
allocation, so the limb witnesses are all 0 and the asserted equality
`low + 2 ^ 11 * mid + 2 ^ 22 * high = input` is violated by the generated
witness (`0 ≠ 2 ^ 32`). -/
theorem c4_recombination_gate_violated_by_one_bit_overflow :
    (runItems (convert_into_sparse_chooser_form (paramsOf .UseTwoTables)
        ⟨.Allocated ⟨0, some (2 ^ 32)⟩, .OneBitOverflow⟩)
        (oneVarCS (some (2 ^ 32)))).getD 3 (.single (.rangeCheck32 []))
      = .single (.ternaryLcEq [1, 2 ^ 11, 2 ^ 22] [1, 2, 3] 0) ∧
    witnessAt (runState (convert_into_sparse_chooser_form (paramsOf .UseTwoTables)
        ⟨.Allocated ⟨0, some (2 ^ 32)⟩, .OneBitOverflow⟩) (oneVarCS (some (2 ^ 32)))) 0
      = some (2 ^ 32) ∧
    witnessAt (runState (convert_into_sparse_chooser_form (paramsOf .UseTwoTables)
        ⟨.Allocated ⟨0, some (2 ^ 32)⟩, .OneBitOverflow⟩) (oneVarCS (some (2 ^ 32)))) 1
      = some 0 ∧
    witnessAt (runState (convert_into_sparse_chooser_form (paramsOf .UseTwoTables)
        ⟨.Allocated ⟨0, some (2 ^ 32)⟩, .OneBitOverflow⟩) (oneVarCS (some (2 ^ 32)))) 2
      = some 0 ∧
    witnessAt (runState (convert_into_sparse_chooser_form (paramsOf .UseTwoTables)
        ⟨.Allocated ⟨0, some (2 ^ 32)⟩, .OneBitOverflow⟩) (oneVarCS (some (2 ^ 32)))) 3
      = some 0 ∧
    lcGateHolds (runState (convert_into_sparse_chooser_form (paramsOf .UseTwoTables)
        ⟨.Allocated ⟨0, some (2 ^ 32)⟩, .OneBitOverflow⟩) (oneVarCS (some (2 ^ 32))))
        (.ternaryLcEq [1, 2 ^ 11, 2 ^ 22] [1, 2, 3] 0)
      = false := by
  refine ⟨?_, ?_, ?_, ?_, ?_, ?_⟩ <;>
    (simp [runValue, runState, runItems, witnessAt, lcGateHolds,
           convert_into_sparse_chooser_form, convert_chooser_core,
           allocate_converted_num, converter_helper, query_table2, ternary_lc_eq,
           u64_exp_to_ff, mapMC, alloc, alloc_zero, emitSingle, emitBatch,
           liftResult, CircuitM.bind, CircuitM.pure, instMonadCircuitM, oneVarCS,
           initialCS, getA, fr_from_repr, fr_neg, limb0Modify, fieldMod, paramsOf,
           Sha256GadgetParams.new, add_table, sparseRotateQuery,
           map_into_sparse_form, rotate_extract, rotr32, SHA256_CHOOSE_BASE,
           SHA256_MAJORITY_BASE, SHA256_GADGET_CHUNK_SIZE, SHA256_REG_WIDTH,
           List.range, List.range.loop]
     <;> decide)

set_option maxHeartbeats 1600000 in
/-- C5, refuted at the allocated input with witness `2 ^ 31` (tracker
`NoOverflow`): the normal component of the produced bundle carries
`2 ^ 31` while the sparse component's witness is 0 (the full-register
conversion is allocated with a 31-bit extraction that drops bit 31), so
the five components do not all represent the same underlying 32-bit
integer. -/
theorem c5_bundle_components_disagree_at_bit31 :
    (runValue (convert_into_sparse_chooser_form (paramsOf .UseTwoTables)
        ⟨.Allocated ⟨0, some (2 ^ 31)⟩, .NoOverflow⟩) (oneVarCS (some (2 ^ 31)))).map
        (fun r => (numValue r.normal, numValue r.sparse))
      = some (some (2 ^ 31), some 0) ∧
    sparse_decode SHA256_CHOOSE_BASE 0 = 0 ∧
    (0 : Nat) ≠ 2 ^ 31 := by
  refine ⟨?_, by decide, by decide⟩
  simp [runValue, runState, runItems, numValue, convert_into_sparse_chooser_form,
        convert_chooser_core, allocate_converted_num, converter_helper,
        query_table2, ternary_lc_eq, u64_exp_to_ff, mapMC, alloc, alloc_zero,
        emitSingle, emitBatch, liftResult, CircuitM.bind, CircuitM.pure,
        instMonadCircuitM, oneVarCS, initialCS, getA, fr_from_repr, fr_neg,
        limb0Modify, fieldMod, paramsOf, Sha256GadgetParams.new, add_table,
        sparseRotateQuery, map_into_sparse_form, rotate_extract, rotr32,
        SHA256_CHOOSE_BASE, SHA256_MAJORITY_BASE, SHA256_GADGET_CHUNK_SIZE,
        SHA256_REG_WIDTH, List.range, List.range.loop]

set_option maxHeartbeats 1600000 in
/-- C7: `Sha256GadgetParams::new` builds and registers the radix-4
10-bit-extraction rotate table exactly under `UseTwoTables` (present in
the parameters and in the registered-table list there, absent under
`RawOverflowCheck`); under `RawOverflowCheck` the plain radix-4 table
serves the high limb while `UseTwoTables` uses the extraction table; and
a Majority-path input tagged `OneBitOverflow` is first reduced through
the 32-bit overflow extraction under `RawOverflowCheck` but converted
directly under `UseTwoTables`. -/
theorem c7_majority_strategy_table_policy (num : Num) (st : CSState) :
    (paramsOf .UseTwoTables).sha256_base4_rot2_extr10_table.isSome = true ∧
    (paramsOf .RawOverflowCheck).sha256_base4_rot2_extr10_table = none ∧
    tablesOf .UseTwoTables =
      ["sha256_base7_rot6_table", "sha256_base7_rot3_extr10_table",
       "sha256_base4_rot2_table", "sha256_base4_rot2_extr10_table",
       "sha256_ch_normalization_table", "sha256_maj_normalization_table",
       "sha256_ch_xor_table", "sha256_maj_xor_table"] ∧
    tablesOf .RawOverflowCheck =
      ["sha256_base7_rot6_table", "sha256_base7_rot3_extr10_table",
       "sha256_base4_rot2_table",
       "sha256_ch_normalization_table", "sha256_maj_normalization_table",
       "sha256_ch_xor_table", "sha256_maj_xor_table"] ∧
    (runItems (convert_into_sparse_majority_form (paramsOf .RawOverflowCheck)
        ⟨.Allocated ⟨0, some 5⟩, .NoOverflow⟩) (oneVarCS (some 5))).getD 2
        (.single (.rangeCheck32 []))
      = .batch [.allocVars [3, 10, 11, 12],
                .lookup "sha256_base4_rot2_table" [3, 10, 11]] ∧
    (runItems (convert_into_sparse_majority_form (paramsOf .UseTwoTables)
        ⟨.Allocated ⟨0, some 5⟩, .NoOverflow⟩) (oneVarCS (some 5))).getD 2
        (.single (.rangeCheck32 []))
      = .batch [.allocVars [3, 10, 11, 12],
                .lookup "sha256_base4_rot2_extr10_table" [3, 10, 11]] ∧
    convert_into_sparse_majority_form (paramsOf .RawOverflowCheck)
        ⟨num, .OneBitOverflow⟩ st
      = CircuitM.bind (extact_32_from_overflowed_num num)
          (convert_majority_core (paramsOf .RawOverflowCheck)) st ∧
    convert_into_sparse_majority_form (paramsOf .UseTwoTables)
        ⟨num, .OneBitOverflow⟩ st
      = convert_majority_core (paramsOf .UseTwoTables) num st := by
  refine ⟨?_, ?_, ?_, ?_, ?_, ?_, ?_, ?_⟩ <;>
    simp [runValue, runState, runItems, tablesOf, convert_into_sparse_majority_form,
          convert_majority_core, allocate_converted_num, converter_helper,
          query_table2, ternary_lc_eq, u64_exp_to_ff, mapMC, alloc, alloc_zero,
          emitSingle, emitBatch, liftResult, CircuitM.bind, CircuitM.pure,
          instMonadCircuitM, oneVarCS, initialCS, getA, fr_from_repr, fr_neg,
          limb0Modify, fieldMod, paramsOf, Sha256GadgetParams.new, add_table,
          sparseRotateQuery, map_into_sparse_form, rotate_extract, rotr32,
          SHA256_CHOOSE_BASE, SHA256_MAJORITY_BASE, SHA256_GADGET_CHUNK_SIZE,
          SHA256_REG_WIDTH, List.range, List.range.loop]

/-- The contract of the lookup queries on an allocated key of variable
index `i`: with no witness on the key, the allocated output variables are
left unassigned (the missing-assignment condition) instead of the call
crashing; with a witness `v` whose query returns `o1 :: o2 :: rest`, the
outputs carry the table's values; and in both modes the call emits
exactly one lookup-gate batch binding the key and the output wires,
padded to the fixed 4-wire gate format and truncated to the table's
declared width. -/
def QueryBehavior (t : LookupTable) (i : Nat) (v o1 o2 : Fr) (st : CSState) : Prop :=
  runValue (query_table1 t ⟨i, none⟩) st = some ⟨st.nextVar, none⟩ ∧
  runItems (query_table1 t ⟨i, none⟩) st = st.items ++
    [GateItem.batch [.allocVars [i, st.nextVar, st.nextVar + 1, st.nextVar + 1],
      .lookup t.name (List.take t.width [i, st.nextVar, st.nextVar + 1, st.nextVar + 1])]] ∧
  runValue (query_table2 t ⟨i, none⟩) st
    = some (⟨st.nextVar, none⟩, ⟨st.nextVar + 1, none⟩) ∧
  runItems (query_table2 t ⟨i, none⟩) st = st.items ++
    [GateItem.batch [.allocVars [i, st.nextVar, st.nextVar + 1, st.nextVar + 2],
      .lookup t.name (List.take t.width [i, st.nextVar, st.nextVar + 1, st.nextVar + 2])]] ∧
  runValue (query_table1 t ⟨i, some v⟩) st = some ⟨st.nextVar, some o1⟩ ∧
  runItems (query_table1 t ⟨i, some v⟩) st = st.items ++
    [GateItem.batch [.allocVars [i, st.nextVar, st.nextVar + 1, st.nextVar + 1],
      .lookup t.name (List.take t.width [i, st.nextVar, st.nextVar + 1, st.nextVar + 1])]] ∧
  runValue (query_table2 t ⟨i, some v⟩) st
    = some (⟨st.nextVar, some o1⟩, ⟨st.nextVar + 1, some o2⟩) ∧
  runItems (query_table2 t ⟨i, some v⟩) st = st.items ++
    [GateItem.batch [.allocVars [i, st.nextVar, st.nextVar + 1, st.nextVar + 2],
      .lookup t.name (List.take t.width [i, st.nextVar, st.nextVar + 1, st.nextVar + 2])]]

/-- C8: `query_table1` and `query_table2` satisfy `QueryBehavior` for
every table whose query on the given key value succeeds with at least two
outputs: a missing key assignment yields unassigned outputs rather than a
crash, and both modes emit exactly one lookup-gate batch in the padded
4-wire format restricted to the table's width. -/
theorem c8_lookup_query_contract (t : LookupTable) (i : Nat) (v o1 o2 : Fr)
    (rest : List Fr) (st : CSState) (hq : t.q v = .ok (o1 :: o2 :: rest)) :
    QueryBehavior t i v o1 o2 st := by
  unfold QueryBehavior
  refine ⟨?_, ?_, ?_, ?_, ?_, ?_, ?_, ?_⟩ <;>
    simp [runValue, runState, runItems, query_table1, query_table2, alloc,
          alloc_zero, emitBatch, liftResult, CircuitM.bind, CircuitM.pure,
          instMonadCircuitM, hq]

/-- A three-column test table whose query adds 1 and 2 to the key. -/
def c8TestTable : LookupTable := ⟨"test_table", 3, fun v => .ok [v + 1, v + 2]⟩

/-- Witness for C8 on `c8TestTable` at key value 5 from a fresh state. -/
theorem c8_lookup_query_contract_witness :
    c8TestTable.q 5 = .ok (6 :: 7 :: []) ∧ QueryBehavior c8TestTable 0 5 6 7 initialCS :=
  ⟨rfl, c8_lookup_query_contract c8TestTable 0 5 6 7 [] initialCS rfl⟩

end Sha256Gadget
